import Mathlib

/-!
Verification of the glucose data-retrieval bot's dialogue state machine
(`glucosedatabot.py`, `utilities.py`, `data_utils.py`, `prompts.py`).

The embedding is a shallow, executable translation of the Python source:

* `Bot` mirrors the mutable attributes of class `GlucoseDataBot`
  (`patient_ids`, `state`, `context`, `conversation_history`,
  `max_history_length`); the `context` dict is a record whose `Option`
  fields model present/absent keys.
* The external language-model calls (`openai_async_wrapper`) are modelled
  by an `Oracle` of functions returning `Except Unit _`: `Except.error ()`
  stands for a raised exception (API failure, or `json.loads` failing on
  malformed output).  The Python code has no try/except around these
  calls, so in the embedding an error short-circuits the whole turn,
  exactly as a Python exception propagates out of `process_message`.
* Filesystem/pandas collaborators (`get_patient_data`) live in `Env`;
  a dataset is abstracted to its list of glucose readings (`List Nat`):
  timestamps and floating-point mean/std formatting are side detail the
  claims do not touch, so the statistics summary renders only the integer
  min/max/count that the source also computes.
* Side effects (opening browsers/plots, writing the PDF) are dropped;
  only the returned confirmation strings are kept, with the wall-clock
  timestamp in the PDF filename abstracted to an opaque constant.
-/

namespace GlucoseBot

/-- One message of the conversation history: `{"role": ..., "content": ...}`. -/
structure Turn where
  role : String
  content : String
deriving DecidableEq, Repr

/-- A patient dataset, abstracted to its column of glucose readings. -/
abbrev Dataset := List Nat

/-- The `BotState` enum of `glucosedatabot.py` (lines 11-16). -/
inductive BotState where
  | INITIAL
  | NEEDS_CLARIFICATION
  | DATA_RETRIEVED
  | ANALYZING_DATA
deriving DecidableEq, Repr

/-- The `self.context` dict.  Each `Option` field models one key the code
uses; `none` is "key absent".  `patient_data` stores the result of
`get_patient_data`, which itself may be `None` (no CSV found); since every
read of the key treats an absent key and a stored `None` identically
(`context.get` followed by an `is None` check), the two are collapsed. -/
structure Context where
  partial_patient_id : Option String := none
  partial_format : Option String := none
  missing_info : Option (List String) := none
  patient_id : Option String := none
  format : Option String := none
  patient_data : Option Dataset := none
deriving DecidableEq, Repr

/-- The mutable attributes of class `GlucoseDataBot`. -/
structure Bot where
  patient_ids : List String
  state : BotState
  context : Context
  conversation_history : List Turn
  max_history_length : Nat
deriving DecidableEq, Repr

/-- The parsed JSON returned by the slot-extraction chain: a dict on which
the code calls `.get("patient_id")` / `.get("format")` (`none` = key
missing, `some ""` = key present but empty). -/
structure QueryInfo where
  patient_id : Option String := none
  format : Option String := none
deriving DecidableEq, Repr

/-- The parsed JSON returned by the intention chain; the code reads
`result["intention"]` with bracket access (KeyError if absent). -/
structure IntentInfo where
  intention : Option String := none
deriving DecidableEq, Repr

/-- The external language-model collaborator (`openai_async_wrapper`),
one function per call site, keyed on the user prompt the call is given.
`Except.error ()` models the call raising (API error or malformed JSON). -/
structure Oracle where
  extract : String → Except Unit QueryInfo
  classify : String → Except Unit IntentInfo
  analyze : String → Except Unit String

/-- The filesystem collaborator: `get_patient_data` of `data_utils.py`
(`none` = no CSV file in the patient folder). -/
structure Env where
  get_patient_data : String → Option Dataset

/-- Python truthiness of an optional string: `None` and `""` are falsy. -/
def truthy : Option String → Bool
  | none => false
  | some s => !s.isEmpty

/-- Python `a or b` on optional strings: `b` whenever `a` is falsy. -/
def pyOr (a b : Option String) : Option String :=
  if truthy a then a else b

/-- Python f-string interpolation of an optional value (`None` prints as
the string "None"). -/
def pyStr : Option String → String
  | none => "None"
  | some s => s

/-- Whether `s` starts with the characters `sub`. -/
def charsAgree : List Char → List Char → Bool
  | [], _ => true
  | _ :: _, [] => false
  | c :: cs, d :: ds => c == d && charsAgree cs ds

/-- Whether `sub` occurs as a contiguous run inside the second list. -/
def charsFindSub (sub : List Char) : List Char → Bool
  | [] => sub.isEmpty
  | d :: ds => charsAgree sub (d :: ds) || charsFindSub sub ds

/-- Python `sub in s` on strings: contiguous substring test. -/
def strContains (s sub : String) : Bool :=
  charsFindSub sub.data s.data

/-- ASCII lowercasing of one character (the export keywords are ASCII, so
Python's unicode `str.lower()` agrees with this on everything relevant). -/
def lowerChar (c : Char) : Char :=
  if 65 ≤ c.toNat ∧ c.toNat ≤ 90 then Char.ofNat (c.toNat + 32) else c

/-- Python `message.lower()`, restricted to ASCII case mapping. -/
def py_lower (s : String) : String := String.mk (s.data.map lowerChar)

/-- The fixed export-intent keyword list checked at the top of every
state handler (`glucosedatabot.py` lines 77, 141, 181, 215). -/
def export_keywords : List String :=
  ["pdf", "export", "save conversation", "export conversation"]

/-- `any(keyword in message.lower() for keyword in [...])`. -/
def wantsExport (message : String) : Bool :=
  export_keywords.any (fun keyword => strContains (py_lower message) keyword)

/-- Python `h[-k:]` on a list (note `h[-0:]` is the whole list). -/
def lastSlice (h : List Turn) (k : Nat) : List Turn :=
  if k = 0 then h else h.drop (h.length - k)

/-- `update_history` (lines 34-38): append, then keep the last
`max_history_length` entries when over the cap. -/
def update_history (bot : Bot) (role content : String) : Bot :=
  let h := bot.conversation_history ++ [{ role := role, content := content }]
  { bot with conversation_history :=
      if bot.max_history_length < h.length then lastSlice h bot.max_history_length else h }

/-- `get_conversation_context` (lines 40-49), as a function of the history
it reads (`self.conversation_history`). -/
def get_conversation_context (history : List Turn) : String :=
  if history.isEmpty then ""
  else history.foldl
    (fun acc msg =>
      acc ++ (if msg.role == "user" then "User" else "Bot") ++ ": " ++ msg.content ++ "\n")
    "\n\nRecent conversation:\n"

/-- `MISSING_PATIENT_PROMPT` of `prompts.py`. -/
def MISSING_PATIENT_PROMPT : String :=
  "- Please specify which patient's data you'd like to see (e.g., patient 032)"

/-- `MISSING_FORMAT_PROMPT` of `prompts.py`. -/
def MISSING_FORMAT_PROMPT : String :=
  "- Please specify if you want to see the raw data or a visual figure"

/-- `REQUEST_CLARIFICATION_PROMPT.format(...)` of `prompts.py`. -/
def REQUEST_CLARIFICATION_PROMPT (missing_patient_prompt missing_format_prompt : String) : String :=
  "\nTo help you better, I need a bit more information:\n" ++ missing_patient_prompt ++
  "\n" ++ missing_format_prompt ++
  "\n\nPlease provide the missing details so I can assist you properly.\n"

/-- `_create_clarification_message` (lines 304-312). -/
def create_clarification_message (missing_info : List String) : String :=
  REQUEST_CLARIFICATION_PROMPT
    (if missing_info.contains "patient_id" then MISSING_PATIENT_PROMPT else "")
    (if missing_info.contains "format" then MISSING_FORMAT_PROMPT else "")

/-- `PATIENT_NOT_FOUND_PROMPT.format(...)` of `prompts.py`. -/
def PATIENT_NOT_FOUND_PROMPT (patient_id available_ids : String) : String :=
  "\nI'm sorry, but I couldn't find data for patient " ++ patient_id ++
  ". \nAvailable patient IDs are: " ++ available_ids ++
  ".\nPlease specify a valid patient ID.\n"

/-- The overflow note of `_create_patient_not_found_message` (line 328). -/
def overflow_note (total : Nat) : String :=
  "\n\nNote: I've shown only the first 10 patient IDs. There are " ++ toString total ++
  " patients available in total."

/-- `_create_patient_not_found_message` (lines 314-330): prompt over the
first 10 catalog ids, fixed instructions, and the overflow note exactly
when the catalog holds more than 10 ids. -/
def create_patient_not_found_message (bot : Bot) (patient_id : String) : String :=
  let available_ids_sample := String.intercalate ", " (bot.patient_ids.take 10)
  let response := PATIENT_NOT_FOUND_PROMPT patient_id available_ids_sample ++
    "\n\nPlease provide another patient ID from the list above. For example: 'Show me data for patient 015'"
  if 10 < bot.patient_ids.length then response ++ overflow_note bot.patient_ids.length
  else response

/-- The wall-clock timestamp in the PDF filename, abstracted. -/
def PDF_TIMESTAMP : String := "timestamp"

/-- `generate_conversation_pdf` of `data_utils.py` (lines 256-327),
reduced to its returned confirmation string. -/
def generate_conversation_pdf (conversation_history : List Turn) (patient_id : Option String) : String :=
  if conversation_history.isEmpty then "No conversation history to export."
  else
    let filename := "conversation_log" ++
      (if truthy patient_id then "_patient_" ++ pyStr patient_id else "") ++
      "_" ++ PDF_TIMESTAMP ++ ".pdf"
    "Conversation exported to " ++ filename ++ " and opened in your default PDF viewer."

/-- `export_conversation_as_pdf` (lines 332-334). -/
def export_conversation_as_pdf (bot : Bot) (patient_id : Option String) : String :=
  generate_conversation_pdf bot.conversation_history patient_id

/-- `generate_glucose_plot` of `data_utils.py`, reduced to its returned
confirmation string. -/
def generate_glucose_plot (data : Option Dataset) (patient_id : String) : String :=
  match data with
  | none => "No data available for this patient."
  | some _ =>
    "Generated enhanced plot for patient " ++ patient_id ++
    ". Opening the plot in your default image viewer and saved as patient_" ++
    patient_id ++ "_glucose.png"

/-- `display_raw_data_popup` of `data_utils.py`, reduced to its returned
confirmation string. -/
def display_raw_data_popup (data : Option Dataset) (patient_id : String) : String :=
  match data with
  | none => "No data available for this patient."
  | some _ => "Displaying raw data for patient " ++ patient_id ++ " in your browser."

/-- The statistics block of `_analyze_glucose_data` (lines 272-289), over
the abstracted dataset: integer min/max/count are computed as in the
source; the floating-point mean/std and the timestamp range are not
representable over the abstraction and are omitted from the rendering. -/
def statsSummary (data : Dataset) : String :=
  "\n        Number of readings: " ++ toString data.length ++
  "\n        Minimum glucose: " ++ toString (data.min?.getD 0) ++
  "\n        Maximum glucose: " ++ toString (data.max?.getD 0) ++ "\n        "

/-- The user prompt `_extract_patient_and_format` (lines 232-245) hands
to the language model. -/
def extract_prompt (history : List Turn) (message : String) : String :=
  get_conversation_context history ++ "\nCurrent query: " ++ message

/-- `_extract_patient_and_format` (lines 232-245): one structured-output
language-model call; any raised error propagates (no try/except). -/
def extract_patient_and_format (oracle : Oracle) (history : List Turn) (message : String) :
    Except Unit QueryInfo :=
  oracle.extract (extract_prompt history message)

/-- `_analyze_intention` (lines 247-262): the prompt is only
`f"User message: {message}"` (the computed context string is unused). -/
def analyze_intention (oracle : Oracle) (message : String) : Except Unit IntentInfo :=
  oracle.classify ("User message: " ++ message)

/-- `_analyze_glucose_data` (lines 264-302): statistics summary plus
conversation context plus the utterance, handed to the language model. -/
def analyze_glucose_data (oracle : Oracle) (history : List Turn) (message : String)
    (patient_id : Option String) (patient_data : Dataset) : Except Unit String :=
  oracle.analyze ("Data for patient " ++ pyStr patient_id ++ ":\n" ++
    statsSummary patient_data ++ "\n" ++ get_conversation_context history ++
    "\nCurrent query: " ++ message)

/-- The slot-merge step duplicated at `glucosedatabot.py` lines 85-92 and
152-159: resolve each field by `extracted or partial` (Python truthiness)
and write it back to the `partial_*` key when truthy. -/
def mergeSlots (query_info : QueryInfo) (ctx : Context) : Context :=
  let patient_id := pyOr query_info.patient_id ctx.partial_patient_id
  let format_type := pyOr query_info.format ctx.partial_format
  let ctx1 := if truthy patient_id then { ctx with partial_patient_id := patient_id } else ctx
  if truthy format_type then { ctx1 with partial_format := format_type } else ctx1

/-- Lines 94-99: the list of slot names still unresolved, in source order. -/
def computeMissing (patient_id format_type : Option String) : List String :=
  (if truthy patient_id then [] else ["patient_id"]) ++
  (if truthy format_type then [] else ["format"])

/-- Lines 161-166: the subset of the previously recorded `missing` list
whose slot is still unresolved, in source order. -/
def stillMissing (missing : List String) (patient_id format_type : Option String) :
    List String :=
  (if missing.contains "patient_id" && !truthy patient_id then ["patient_id"] else []) ++
  (if missing.contains "format" && !truthy format_type then ["format"] else [])

/-- The follow-up offer appended after a successful retrieval (line 135). -/
def FOLLOW_UP_OFFER : String :=
  "\n\nI can help you analyze this data further, or I can retrieve data for another patient. What would you like to do?"

/-- `_handle_initial_message` (lines 74-136). -/
def handle_initial_message (env : Env) (oracle : Oracle) (bot : Bot) (message : String) :
    Except Unit (String × Bot) :=
  if wantsExport message then
    Except.ok (export_conversation_as_pdf bot bot.context.patient_id, bot)
  else
    match extract_patient_and_format oracle bot.conversation_history message with
    | Except.error e => Except.error e
    | Except.ok query_info =>
      let patient_id := pyOr query_info.patient_id bot.context.partial_patient_id
      let format_type := pyOr query_info.format bot.context.partial_format
      let ctx := mergeSlots query_info bot.context
      let missing := computeMissing patient_id format_type
      if missing ≠ [] then
        Except.ok (create_clarification_message missing,
          { bot with context := { ctx with missing_info := some missing },
                     state := BotState.NEEDS_CLARIFICATION })
      else
        let pid := pyStr patient_id
        if pid ∉ bot.patient_ids then
          Except.ok (create_patient_not_found_message bot pid, { bot with context := ctx })
        else
          let patient_data := env.get_patient_data pid
          let ctx2 : Context :=
            { ctx with partial_patient_id := none, partial_format := none,
                       patient_id := patient_id, format := format_type,
                       patient_data := patient_data }
          let bot2 := { bot with context := ctx2, state := BotState.DATA_RETRIEVED }
          let result :=
            if format_type = some "figure" then generate_glucose_plot patient_data pid
            else display_raw_data_popup patient_data pid
          Except.ok (result ++ FOLLOW_UP_OFFER, bot2)

/-- `patient_data is None or patient_data.empty` (line 223). -/
def pandas_missing : Option Dataset → Bool
  | none => true
  | some d => d.isEmpty

/-- `_handle_analysis` (lines 212-230). -/
def handle_analysis (oracle : Oracle) (bot : Bot) (message : String) :
    Except Unit (String × Bot) :=
  if wantsExport message then
    Except.ok (export_conversation_as_pdf bot bot.context.patient_id, bot)
  else
    if pandas_missing bot.context.patient_data || !truthy bot.context.patient_id then
      Except.ok ("I don't have any patient data to analyze. Please specify which patient's data you'd like to see.",
        { bot with state := BotState.INITIAL })
    else
      match analyze_glucose_data oracle bot.conversation_history message
              bot.context.patient_id (bot.context.patient_data.getD []) with
      | Except.error e => Except.error e
      | Except.ok analysis =>
        Except.ok (analysis, { bot with state := BotState.DATA_RETRIEVED })

/-- `_handle_clarification` (lines 138-176). -/
def handle_clarification (env : Env) (oracle : Oracle) (bot : Bot) (message : String) :
    Except Unit (String × Bot) :=
  if wantsExport message then
    Except.ok (export_conversation_as_pdf bot bot.context.patient_id, bot)
  else
    match extract_patient_and_format oracle bot.conversation_history message with
    | Except.error e => Except.error e
    | Except.ok query_info =>
      let missing := bot.context.missing_info.getD []
      let patient_id := pyOr query_info.patient_id bot.context.partial_patient_id
      let format_type := pyOr query_info.format bot.context.partial_format
      let ctx := mergeSlots query_info bot.context
      let still_missing := stillMissing missing patient_id format_type
      if still_missing ≠ [] then
        Except.ok (create_clarification_message still_missing,
          { bot with context := { ctx with missing_info := some still_missing } })
      else
        handle_initial_message env oracle
          { bot with state := BotState.INITIAL, context := ctx }
          ("Get " ++ pyStr format_type ++ " data for patient " ++ pyStr patient_id)

/-- The unclear-intention reply of `_handle_data_retrieved` (line 210). -/
def UNCLEAR_INTENTION : String :=
  "I'm not sure what you'd like to do. Would you like to analyze this patient's data further, or retrieve data for a different patient?"

/-- `_handle_data_retrieved` (lines 178-210).  Reading
`intention["intention"]` raises KeyError when the key is absent, modelled
as `Except.error ()`. -/
def handle_data_retrieved (env : Env) (oracle : Oracle) (bot : Bot) (message : String) :
    Except Unit (String × Bot) :=
  if wantsExport message then
    Except.ok (export_conversation_as_pdf bot bot.context.patient_id, bot)
  else
    match analyze_intention oracle message with
    | Except.error e => Except.error e
    | Except.ok intent =>
      match intent.intention with
      | none => Except.error ()
      | some i =>
        if i = "analyze_current" then
          handle_analysis oracle { bot with state := BotState.ANALYZING_DATA } message
        else if i = "retrieve_new" then
          let bot1 := { bot with state := BotState.INITIAL, context := {} }
          match extract_patient_and_format oracle bot1.conversation_history message with
          | Except.error e => Except.error e
          | Except.ok query_info =>
            let ctx1 : Context := {}
            let ctx2 := if truthy query_info.patient_id then
                { ctx1 with partial_patient_id := query_info.patient_id } else ctx1
            let ctx3 := if truthy query_info.format then
                { ctx2 with partial_format := query_info.format } else ctx2
            handle_initial_message env oracle { bot1 with context := ctx3 } message
        else
          Except.ok (UNCLEAR_INTENTION, bot)

/-- `process_message` (lines 51-72): append the user turn, dispatch on the
current state, append the bot turn.  A raised language-model error
propagates out (the caller, `main.py`, has no handler either). -/
def process_message (env : Env) (oracle : Oracle) (bot : Bot) (user_message : String) :
    Except Unit (String × Bot) :=
  let bot1 := update_history bot "user" user_message
  let r :=
    match bot1.state with
    | BotState.INITIAL => handle_initial_message env oracle bot1 user_message
    | BotState.NEEDS_CLARIFICATION => handle_clarification env oracle bot1 user_message
    | BotState.DATA_RETRIEVED => handle_data_retrieved env oracle bot1 user_message
    | BotState.ANALYZING_DATA => handle_analysis oracle bot1 user_message
  match r with
  | Except.error e => Except.error e
  | Except.ok (response, bot2) => Except.ok (response, update_history bot2 "bot" response)


/-- A fixed data environment for concrete runs: every patient folder holds
one CSV with three readings. -/
def env0 : Env := { get_patient_data := fun _ => some [100, 120, 90] }

/-- An oracle whose every language-model call raises. -/
def oracleFail : Oracle :=
  { extract := fun _ => Except.error (), classify := fun _ => Except.error (),
    analyze := fun _ => Except.error () }

/-- An oracle whose structured outputs are parsed but hold no keys. -/
def oracleEmpty : Oracle :=
  { extract := fun _ => Except.ok {}, classify := fun _ => Except.ok {},
    analyze := fun _ => Except.ok "analysis" }

/-- A freshly constructed bot over a three-patient catalog (the state
`__init__` sets up: `INITIAL`, empty context, empty history, cap 6). -/
def bot0 : Bot :=
  { patient_ids := ["001", "002", "032"], state := BotState.INITIAL, context := {},
    conversation_history := [], max_history_length := 6 }

/-- An extraction oracle for the two-turn clarification scenario: it reads
the format slot out of a prompt that mentions "b raw" and nothing else. -/
def oracle5 : Oracle :=
  { extract := fun p =>
      if strContains p "b raw" then Except.ok { format := some "raw" } else Except.ok {},
    classify := fun _ => Except.ok {}, analyze := fun _ => Except.ok "" }

/-- An extraction result naming a patient id outside `bot0`'s catalog. -/
def qBad : QueryInfo := { patient_id := some "999", format := some "raw" }

/-- An oracle that always extracts `qBad`. -/
def oracleBad : Oracle :=
  { extract := fun _ => Except.ok qBad, classify := fun _ => Except.ok {},
    analyze := fun _ => Except.ok "" }

/-- An extraction result naming the valid patient "002". -/
def qNew : QueryInfo := { patient_id := some "002", format := some "raw" }

/-- An oracle that classifies every follow-up as a new-patient request
and extracts `qNew`. -/
def oracleNew : Oracle :=
  { extract := fun _ => Except.ok qNew,
    classify := fun _ => Except.ok { intention := some "retrieve_new" },
    analyze := fun _ => Except.ok "" }

/-- A bot that has already retrieved data for patient "001". -/
def botDR : Bot :=
  { bot0 with
    state := BotState.DATA_RETRIEVED,
    context := { patient_id := some "001", format := some "raw",
                 patient_data := some [101, 99] } }

/-- An oracle that always extracts only the raw format. -/
def oracleFmt : Oracle :=
  { extract := fun _ => Except.ok { format := some "raw" },
    classify := fun _ => Except.ok {}, analyze := fun _ => Except.ok "" }

/-- A bot mid-clarification: patient "032" already resolved, format missing. -/
def botNC : Bot :=
  { bot0 with
    state := BotState.NEEDS_CLARIFICATION,
    context := { partial_patient_id := some "032", missing_info := some ["format"] } }

/-- A bot in `ANALYZING_DATA` with no dataset in context. -/
def botAD : Bot := { bot0 with state := BotState.ANALYZING_DATA }

/-- A bot in `INITIAL` still holding the invalid partial id "999". -/
def botBad : Bot :=
  { bot0 with context := { partial_patient_id := some "999", partial_format := some "raw" } }

/-- A sequence of raw history appends, as `process_message` performs two
per processed turn. -/
def runTurns (bot : Bot) (turns : List Turn) : Bot :=
  turns.foldl (fun b t => update_history b t.role t.content) bot

@[simp] lemma update_history_state (bot : Bot) (r c : String) :
    (update_history bot r c).state = bot.state := rfl

@[simp] lemma update_history_context (bot : Bot) (r c : String) :
    (update_history bot r c).context = bot.context := rfl

@[simp] lemma update_history_patient_ids (bot : Bot) (r c : String) :
    (update_history bot r c).patient_ids = bot.patient_ids := rfl

lemma truthy_some {s : String} (h : s ≠ "") : truthy (some s) = true := by
  have he : s.isEmpty = false := by
    cases he : s.isEmpty
    · rfl
    · exact absurd ((String.isEmpty_iff s).mp he) h
  simp [truthy, he]

lemma truthy_pyOr_right {a b : Option String} (hb : truthy b = true) :
    truthy (pyOr a b) = true := by
  unfold pyOr; cases h : truthy a <;> simp [h, hb]

lemma mergeSlots_partial_patient_id (q : QueryInfo) (ctx : Context)
    (h : truthy (pyOr q.patient_id ctx.partial_patient_id) = true) :
    (mergeSlots q ctx).partial_patient_id = pyOr q.patient_id ctx.partial_patient_id := by
  cases h2 : truthy (pyOr q.format ctx.partial_format) <;> simp [mergeSlots, h, h2]

lemma mergeSlots_partial_format (q : QueryInfo) (ctx : Context)
    (h : truthy (pyOr q.format ctx.partial_format) = true) :
    (mergeSlots q ctx).partial_format = pyOr q.format ctx.partial_format := by
  cases h1 : truthy (pyOr q.patient_id ctx.partial_patient_id) <;> simp [mergeSlots, h, h1]

lemma mergeSlots_patient_id (q : QueryInfo) (ctx : Context) :
    (mergeSlots q ctx).patient_id = ctx.patient_id := by
  cases h1 : truthy (pyOr q.patient_id ctx.partial_patient_id) <;>
    cases h2 : truthy (pyOr q.format ctx.partial_format) <;>
      simp [mergeSlots, h1, h2]

lemma mergeSlots_format (q : QueryInfo) (ctx : Context) :
    (mergeSlots q ctx).format = ctx.format := by
  cases h1 : truthy (pyOr q.patient_id ctx.partial_patient_id) <;>
    cases h2 : truthy (pyOr q.format ctx.partial_format) <;>
      simp [mergeSlots, h1, h2]

lemma mergeSlots_patient_data (q : QueryInfo) (ctx : Context) :
    (mergeSlots q ctx).patient_data = ctx.patient_data := by
  cases h1 : truthy (pyOr q.patient_id ctx.partial_patient_id) <;>
    cases h2 : truthy (pyOr q.format ctx.partial_format) <;>
      simp [mergeSlots, h1, h2]

lemma mergeSlots_missing_info (q : QueryInfo) (ctx : Context) :
    (mergeSlots q ctx).missing_info = ctx.missing_info := by
  cases h1 : truthy (pyOr q.patient_id ctx.partial_patient_id) <;>
    cases h2 : truthy (pyOr q.format ctx.partial_format) <;>
      simp [mergeSlots, h1, h2]

lemma pyOr_pos {a : Option String} (b : Option String) (h : truthy a = true) :
    pyOr a b = a := by simp [pyOr, h]

lemma pyOr_neg {a : Option String} (b : Option String) (h : truthy a = false) :
    pyOr a b = b := by simp [pyOr, h]

@[simp] lemma update_history_max (bot : Bot) (r c : String) :
    (update_history bot r c).max_history_length = bot.max_history_length := rfl

lemma update_history_suffix_6 (bot : Bot) (full : List Turn)
    (h6 : bot.max_history_length = 6)
    (hh : bot.conversation_history = full.drop (full.length - 6)) (r c : String) :
    (update_history bot r c).conversation_history =
      (full ++ [Turn.mk r c]).drop ((full.length + 1) - 6) := by
  unfold update_history lastSlice
  rw [hh, h6]
  dsimp only
  by_cases hl : full.length ≤ 5
  · have h0 : full.length - 6 = 0 := by omega
    have hlen : (full.drop (full.length - 6) ++ [Turn.mk r c]).length =
        full.length + 1 := by simp [h0]
    rw [hlen]
    have : ¬ (6 < full.length + 1) := by omega
    simp only [this, if_false]
    rw [h0, List.drop_zero]
    have h0' : full.length + 1 - 6 = 0 := by omega
    rw [h0', List.drop_zero]
  · have h6le : 6 ≤ full.length := by omega
    have hdlen : (full.drop (full.length - 6)).length = 6 := by
      rw [List.length_drop]; omega
    have hlen : (full.drop (full.length - 6) ++ [Turn.mk r c]).length = 7 := by
      simp [hdlen]
    rw [hlen]
    have h76 : (6:Nat) < 7 := by omega
    simp only [h76, if_true]
    have h1 : (7:Nat) - 6 = 1 := by omega
    rw [h1]
    have hne6 : ¬ ((6:Nat) = 0) := by omega
    simp only [hne6, if_false]
    rw [List.drop_append_of_le_length (by omega : 1 ≤ (full.drop (full.length - 6)).length),
      List.drop_drop]
    rw [List.drop_append_of_le_length (by omega : full.length + 1 - 6 ≤ full.length)]
    have harith : full.length - 6 + 1 = full.length + 1 - 6 := by omega
    rw [harith]

@[simp] lemma Turn_eta (t : Turn) : ({ role := t.role, content := t.content } : Turn) = t := rfl

lemma runTurns_suffix (turns : List Turn) : ∀ (bot : Bot) (full : List Turn),
    bot.max_history_length = 6 →
    bot.conversation_history = full.drop (full.length - 6) →
    (runTurns bot turns).conversation_history =
      (full ++ turns).drop ((full ++ turns).length - 6) := by
  induction turns with
  | nil =>
    intro bot full h6 hh
    simpa [runTurns] using hh
  | cons t ts ih =>
    intro bot full h6 hh
    have hstep := update_history_suffix_6 bot full h6 hh t.role t.content
    have := ih (update_history bot t.role t.content) (full ++ [t]) (by simp [h6])
      (by simpa using hstep)
    simp only [runTurns, List.foldl_cons] at this ⊢
    rw [this]
    simp [List.append_assoc]

lemma handle_initial_frame (env : Env) (oracle : Oracle) (b : Bot) (msg : String) :
    ∀ (resp : String) (bot2 : Bot),
      handle_initial_message env oracle b msg = Except.ok (resp, bot2) →
      bot2.conversation_history = b.conversation_history ∧
      bot2.max_history_length = b.max_history_length := by
  intro resp bot2 h
  unfold handle_initial_message at h
  by_cases hexp : wantsExport msg = true
  · simp [hexp] at h
    rw [← h.2]
    exact ⟨rfl, rfl⟩
  · rw [Bool.not_eq_true] at hexp
    cases hE : extract_patient_and_format oracle b.conversation_history msg with
    | error e => simp [hexp, hE] at h
    | ok q' =>
      simp only [hexp, Bool.false_eq_true, if_false, hE] at h
      split_ifs at h <;> (simp at h; rw [← h.2]; exact ⟨rfl, rfl⟩)

lemma handle_analysis_frame (oracle : Oracle) (b : Bot) (msg : String) :
    ∀ (resp : String) (bot2 : Bot),
      handle_analysis oracle b msg = Except.ok (resp, bot2) →
      bot2.conversation_history = b.conversation_history ∧
      bot2.max_history_length = b.max_history_length := by
  intro resp bot2 h
  unfold handle_analysis at h
  by_cases hexp : wantsExport msg = true
  · simp [hexp] at h
    rw [← h.2]
    exact ⟨rfl, rfl⟩
  · rw [Bool.not_eq_true] at hexp
    simp only [hexp, Bool.false_eq_true, if_false] at h
    split_ifs at h with hcond
    · simp at h
      rw [← h.2]
      exact ⟨rfl, rfl⟩
    · cases hA : analyze_glucose_data oracle b.conversation_history msg
          b.context.patient_id (b.context.patient_data.getD []) with
      | error e => rw [hA] at h; simp at h
      | ok a =>
        rw [hA] at h
        simp at h
        rw [← h.2]
        exact ⟨rfl, rfl⟩

lemma handle_clarification_frame (env : Env) (oracle : Oracle) (b : Bot) (msg : String) :
    ∀ (resp : String) (bot2 : Bot),
      handle_clarification env oracle b msg = Except.ok (resp, bot2) →
      bot2.conversation_history = b.conversation_history ∧
      bot2.max_history_length = b.max_history_length := by
  intro resp bot2 h
  unfold handle_clarification at h
  by_cases hexp : wantsExport msg = true
  · simp [hexp] at h
    rw [← h.2]
    exact ⟨rfl, rfl⟩
  · rw [Bool.not_eq_true] at hexp
    cases hE : extract_patient_and_format oracle b.conversation_history msg with
    | error e => simp [hexp, hE] at h
    | ok q' =>
      simp only [hexp, Bool.false_eq_true, if_false, hE] at h
      split_ifs at h with hcond
      · simp at h
        rw [← h.2]
        exact ⟨rfl, rfl⟩
      · have hh := handle_initial_frame _ _ _ _ _ _ h
        exact hh

lemma handle_data_retrieved_frame (env : Env) (oracle : Oracle) (b : Bot) (msg : String) :
    ∀ (resp : String) (bot2 : Bot),
      handle_data_retrieved env oracle b msg = Except.ok (resp, bot2) →
      bot2.conversation_history = b.conversation_history ∧
      bot2.max_history_length = b.max_history_length := by
  intro resp bot2 h
  unfold handle_data_retrieved at h
  by_cases hexp : wantsExport msg = true
  · simp [hexp] at h
    rw [← h.2]
    exact ⟨rfl, rfl⟩
  · rw [Bool.not_eq_true] at hexp
    cases hI : analyze_intention oracle msg with
    | error e => simp [hexp, hI] at h
    | ok intent =>
      simp only [hexp, Bool.false_eq_true, if_false, hI] at h
      cases hIn : intent.intention with
      | none => rw [hIn] at h; simp at h
      | some i =>
        rw [hIn] at h
        dsimp only at h
        by_cases hac : i = "analyze_current"
        · subst hac
          rw [if_pos rfl] at h
          have hh := handle_analysis_frame _ _ _ _ _ h
          exact hh
        · by_cases hrn : i = "retrieve_new"
          · subst hrn
            rw [if_neg hac, if_pos rfl] at h
            cases hE : extract_patient_and_format oracle b.conversation_history msg with
            | error e => rw [hE] at h; simp at h
            | ok q' =>
              rw [hE] at h
              have hh := handle_initial_frame _ _ _ _ _ _ h
              exact hh
          · rw [if_neg hac, if_neg hrn] at h
            simp at h
            rw [← h.2]
            exact ⟨rfl, rfl⟩

lemma update_history_congr (b b' : Bot) (r c : String)
    (h1 : b.conversation_history = b'.conversation_history)
    (h2 : b.max_history_length = b'.max_history_length) :
    (update_history b r c).conversation_history =
      (update_history b' r c).conversation_history := by
  unfold update_history
  dsimp only
  rw [h1, h2]

lemma turn_history_of_handler (b1 : Bot) (resp : String) (bot2 : Bot)
    (r : Except Unit (String × Bot))
    (hframe : ∀ (rr : String) (b3 : Bot), r = Except.ok (rr, b3) →
      b3.conversation_history = b1.conversation_history ∧
      b3.max_history_length = b1.max_history_length)
    (h : (match r with
          | Except.error e => Except.error e
          | Except.ok (response, b3) => Except.ok (response, update_history b3 "bot" response)) =
        Except.ok (resp, bot2)) :
    bot2.conversation_history = (update_history b1 "bot" resp).conversation_history := by
  cases r with
  | error e => simp at h
  | ok p =>
    rcases p with ⟨rr, b3⟩
    simp at h
    obtain ⟨h1, h2⟩ := h
    subst h1
    rw [← h2]
    exact update_history_congr _ _ _ _ (hframe rr b3 rfl).1 (hframe rr b3 rfl).2

lemma handle_initial_no_clarification (env : Env) (oracle : Oracle) (b : Bot) (msg : String)
    (hst : b.state = BotState.INITIAL)
    (h1 : truthy b.context.partial_patient_id = true)
    (h2 : truthy b.context.partial_format = true) :
    ∀ (resp : String) (bot2 : Bot),
      handle_initial_message env oracle b msg = Except.ok (resp, bot2) →
      bot2.state ≠ BotState.NEEDS_CLARIFICATION := by
  intro resp bot2 hok
  unfold handle_initial_message at hok
  by_cases hexp : wantsExport msg
  · simp [hexp] at hok
    rw [← hok.2, hst]
    simp
  · cases hE : extract_patient_and_format oracle b.conversation_history msg with
    | error e => simp [hexp, hE] at hok
    | ok q' =>
      have hP := truthy_pyOr_right (a := q'.patient_id) h1
      have hF := truthy_pyOr_right (a := q'.format) h2
      simp [hexp, hE, computeMissing, hP, hF] at hok
      by_cases hm : pyStr (pyOr q'.patient_id b.context.partial_patient_id) ∈ b.patient_ids
      · simp [hm] at hok
        rw [← hok.2]
        simp
      · simp [hm] at hok
        rw [← hok.2, hst]
        simp

/-- C1 (corrected, main theorem): in state INITIAL with no export keyword,
a turn whose extraction returns parsed output with both fields unresolved
proceeds through the normal still-missing clarification path; but a turn
whose extraction call raises propagates the error out of `process_message`
uncaught (contrary to the claim, the session does crash). -/
theorem C1_no_error_handling (env : Env) (oracle : Oracle) (bot : Bot) (msg : String)
    (hstate : bot.state = BotState.INITIAL) (hexp : wantsExport msg = false) :
    (oracle.extract (extract_prompt (update_history bot "user" msg).conversation_history msg) =
        Except.error () →
      process_message env oracle bot msg = Except.error ()) ∧
    (∀ q : QueryInfo,
      oracle.extract (extract_prompt (update_history bot "user" msg).conversation_history msg) =
        Except.ok q →
      truthy (pyOr q.patient_id bot.context.partial_patient_id) = false →
      truthy (pyOr q.format bot.context.partial_format) = false →
      ∃ bot2 : Bot,
        process_message env oracle bot msg =
          Except.ok (create_clarification_message ["patient_id", "format"], bot2) ∧
        bot2.state = BotState.NEEDS_CLARIFICATION ∧
        bot2.context.missing_info = some ["patient_id", "format"]) := by
  rcases bot with ⟨pids, st, ctx, hist, mx⟩
  cases hstate
  constructor
  · intro herr
    simp [process_message, handle_initial_message, extract_patient_and_format, hexp, herr]
  · intro q hq hp hf
    simp [process_message, handle_initial_message, extract_patient_and_format, hexp, hq,
      computeMissing, hp, hf]

/-- C1 (counterexample): with a failing extraction call, `process_message`
returns the propagated error and no normal turn result exists, refuting
"the session never crashes and the read loop always returns". -/
theorem C1_counterexample :
    process_message env0 oracleFail bot0 "hello" = Except.error () ∧
    ¬ ∃ (resp : String) (bot2 : Bot),
        process_message env0 oracleFail bot0 "hello" = Except.ok (resp, bot2) := by
  refine ⟨rfl, ?_⟩
  rintro ⟨r, b2, h⟩
  rw [show process_message env0 oracleFail bot0 "hello" = Except.error () from rfl] at h
  exact Except.noConfusion h

/-- C1 (witness): the error half of the amended theorem at a concrete bot. -/
theorem C1_witness :
    process_message env0 oracleFail bot0 "hi" = Except.error () :=
  (C1_no_error_handling env0 oracleFail bot0 "hi" rfl rfl).1 rfl

/-- C2: in every one of the four states, an utterance containing an export
keyword (case-insensitive substring) short-circuits the turn to exporting
the conversation, and the bot's state and dialogue context after the turn
equal their values before it. -/
theorem C2_export_short_circuit (env : Env) (oracle : Oracle) (bot : Bot) (msg : String)
    (h : wantsExport msg = true) :
    ∃ bot2 : Bot,
      process_message env oracle bot msg =
        Except.ok (export_conversation_as_pdf (update_history bot "user" msg)
          bot.context.patient_id, bot2) ∧
      bot2.state = bot.state ∧ bot2.context = bot.context := by
  refine ⟨update_history (update_history bot "user" msg) "bot"
    (export_conversation_as_pdf (update_history bot "user" msg) bot.context.patient_id),
    ?_, rfl, rfl⟩
  rcases bot with ⟨pids, st, ctx, hist, mx⟩
  cases st <;>
    simp [process_message, handle_initial_message, handle_clarification,
      handle_data_retrieved, handle_analysis, h]

/-- C2 (witness): the export turn evaluated on a concrete fresh bot. -/
theorem C2_witness :
    ∃ bot2 : Bot,
      process_message env0 oracleEmpty bot0 "please export the conversation" =
        Except.ok (export_conversation_as_pdf
          (update_history bot0 "user" "please export the conversation")
          bot0.context.patient_id, bot2) ∧
      bot2.state = bot0.state ∧ bot2.context = bot0.context :=
  C2_export_short_circuit env0 oracleEmpty bot0 "please export the conversation" rfl

/-- C3: over every sequence of history appends (a processed turn performs
exactly two, shown by the second conjunct), the retained history is
exactly the most recent entries of the full turn history - the suffix
`drop (length - 6)` - and its length never exceeds the cap 6. -/
theorem C3_history_bounded :
    (∀ (bot : Bot) (turns : List Turn),
      bot.conversation_history = [] → bot.max_history_length = 6 →
      (runTurns bot turns).conversation_history = turns.drop (turns.length - 6) ∧
      (runTurns bot turns).conversation_history.length ≤ 6) ∧
    (∀ (env : Env) (oracle : Oracle) (bot : Bot) (msg resp : String) (bot2 : Bot),
      process_message env oracle bot msg = Except.ok (resp, bot2) →
      bot2.conversation_history =
        (update_history (update_history bot "user" msg) "bot" resp).conversation_history) := by
  constructor
  · intro bot turns h0 h6
    have hs := runTurns_suffix turns bot [] h6 (by simp [h0])
    simp only [List.nil_append] at hs
    refine ⟨hs, ?_⟩
    rw [hs, List.length_drop]
    omega
  · intro env oracle b msg resp bot2 h
    simp only [process_message] at h
    cases hstate : (update_history b "user" msg).state <;> rw [hstate] at h <;>
      dsimp only at h
    · exact turn_history_of_handler _ _ _ _
        (fun rr b3 hR => handle_initial_frame _ _ _ _ _ _ hR) h
    · exact turn_history_of_handler _ _ _ _
        (fun rr b3 hR => handle_clarification_frame _ _ _ _ _ _ hR) h
    · exact turn_history_of_handler _ _ _ _
        (fun rr b3 hR => handle_data_retrieved_frame _ _ _ _ _ _ hR) h
    · exact turn_history_of_handler _ _ _ _
        (fun rr b3 hR => handle_analysis_frame _ _ _ _ _ hR) h

/-- C4: the slot-merge step shared by `_handle_initial_message` and
`_handle_clarification` is newest-non-empty-wins and monotonic per field:
a truthy extracted value overwrites the stored partial, an empty one
leaves it intact, a resolved field stays resolved, and no other context
key is touched by the merge. -/
theorem C4_slot_merge (q : QueryInfo) (ctx : Context) :
    (truthy q.patient_id = true → (mergeSlots q ctx).partial_patient_id = q.patient_id) ∧
    (truthy q.patient_id = false →
      (mergeSlots q ctx).partial_patient_id = ctx.partial_patient_id) ∧
    (truthy ctx.partial_patient_id = true →
      truthy (mergeSlots q ctx).partial_patient_id = true) ∧
    (truthy q.format = true → (mergeSlots q ctx).partial_format = q.format) ∧
    (truthy q.format = false → (mergeSlots q ctx).partial_format = ctx.partial_format) ∧
    (truthy ctx.partial_format = true → truthy (mergeSlots q ctx).partial_format = true) ∧
    (mergeSlots q ctx).patient_id = ctx.patient_id ∧
    (mergeSlots q ctx).format = ctx.format ∧
    (mergeSlots q ctx).patient_data = ctx.patient_data ∧
    (mergeSlots q ctx).missing_info = ctx.missing_info := by
  rcases q with ⟨qp, qf⟩
  rcases ctx with ⟨pp, pf, mi, pi, fo, pd⟩
  cases hqp : truthy qp <;> cases hqf : truthy qf <;>
    cases hpp : truthy pp <;> cases hpf : truthy pf <;>
      simp [mergeSlots, pyOr, hqp, hqf, hpp, hpf]

set_option maxRecDepth 8000 in
/-- C5: from INITIAL, an utterance with neither slot lands in
NEEDS_CLARIFICATION with missing = [patient_id, format]; a follow-up
supplying only the format narrows missing to [patient_id] and stays in
NEEDS_CLARIFICATION; and the still-missing list is always a subset of the
previously recorded missing list. -/
theorem C5_clarification_narrowing :
    (∃ b1 : Bot,
      process_message env0 oracle5 bot0 "hello there" =
        Except.ok (create_clarification_message ["patient_id", "format"], b1) ∧
      b1.state = BotState.NEEDS_CLARIFICATION ∧
      b1.context.missing_info = some ["patient_id", "format"] ∧
      ∃ b2 : Bot,
        process_message env0 oracle5 b1 "b raw" =
          Except.ok (create_clarification_message ["patient_id"], b2) ∧
        b2.state = BotState.NEEDS_CLARIFICATION ∧
        b2.context.missing_info = some ["patient_id"]) ∧
    (∀ (missing : List String) (pid fmt : Option String),
      stillMissing missing pid fmt ⊆ missing) := by
  constructor
  · exact ⟨_, rfl, rfl, rfl, _, rfl, rfl, rfl⟩
  · intro missing pid fmt x hx
    unfold stillMissing at hx
    rcases List.mem_append.mp hx with hx | hx
    · split_ifs at hx with hc
      · simp only [List.mem_singleton] at hx
        subst hx
        have := (Bool.and_eq_true _ _).mp hc
        simpa using this.1
      · simp at hx
    · split_ifs at hx with hc
      · simp only [List.mem_singleton] at hx
        subst hx
        have := (Bool.and_eq_true _ _).mp hc
        simpa using this.1
      · simp at hx

/-- C6: with both slots resolved but the patient id outside the catalog,
the turn stays in INITIAL, clears no already-resolved context value
(context changes only by the slot merge), and replies with the not-found
message, which lists at most the first 10 catalog ids and appends the
overflow note exactly when the catalog holds more than 10. -/
theorem C6_patient_not_found (env : Env) (oracle : Oracle) (bot : Bot) (msg : String)
    (q : QueryInfo) (pid : String)
    (hstate : bot.state = BotState.INITIAL) (hexp : wantsExport msg = false)
    (hq : oracle.extract
      (extract_prompt (update_history bot "user" msg).conversation_history msg) =
      Except.ok q)
    (hpid : pyOr q.patient_id bot.context.partial_patient_id = some pid)
    (hpid2 : pid ≠ "")
    (hfmt : truthy (pyOr q.format bot.context.partial_format) = true)
    (hnot : pid ∉ bot.patient_ids) :
    (∃ bot2 : Bot,
      process_message env oracle bot msg =
        Except.ok (create_patient_not_found_message (update_history bot "user" msg) pid,
          bot2) ∧
      bot2.state = BotState.INITIAL ∧
      bot2.context = mergeSlots q bot.context ∧
      bot2.context.patient_id = bot.context.patient_id ∧
      bot2.context.format = bot.context.format ∧
      bot2.context.patient_data = bot.context.patient_data ∧
      (truthy bot.context.partial_patient_id = true →
        truthy bot2.context.partial_patient_id = true) ∧
      (truthy bot.context.partial_format = true →
        truthy bot2.context.partial_format = true)) ∧
    (bot.patient_ids.take 10).length ≤ 10 ∧
    create_patient_not_found_message (update_history bot "user" msg) pid =
      PATIENT_NOT_FOUND_PROMPT pid (String.intercalate ", " (bot.patient_ids.take 10)) ++
      "\n\nPlease provide another patient ID from the list above. For example: 'Show me data for patient 015'" ++
      (if 10 < bot.patient_ids.length then overflow_note bot.patient_ids.length else "") := by
  rcases bot with ⟨pids, st, ctx, hist, mx⟩
  cases hstate
  dsimp only at hq hpid hfmt hnot ⊢
  have htr : truthy (pyOr q.patient_id ctx.partial_patient_id) = true := by
    rw [hpid]; exact truthy_some hpid2
  have hts : truthy (some pid) = true := truthy_some hpid2
  have hmono1 : truthy (mergeSlots q ctx).partial_patient_id = true := by
    rw [mergeSlots_partial_patient_id q ctx htr]; exact htr
  have hmono2 : truthy (mergeSlots q ctx).partial_format = true := by
    rw [mergeSlots_partial_format q ctx hfmt]; exact hfmt
  refine ⟨?_, ?_, ?_⟩
  · simp [process_message, handle_initial_message, extract_patient_and_format, hexp, hq,
      computeMissing, hts, hfmt, hpid, pyStr, hnot,
      mergeSlots_patient_id, mergeSlots_format, mergeSlots_patient_data, hmono1, hmono2]
  · simp [List.length_take]
  · by_cases hlen : 10 < pids.length <;>
      simp [create_patient_not_found_message, hlen]

/-- C6 (witness): the not-found turn for id "999" against a 3-id catalog. -/
theorem C6_witness :
    ∃ bot2 : Bot,
      process_message env0 oracleBad bot0 "nine nine nine raw" =
        Except.ok (create_patient_not_found_message
          (update_history bot0 "user" "nine nine nine raw") "999", bot2) ∧
      bot2.state = BotState.INITIAL ∧
      bot2.context = mergeSlots qBad bot0.context ∧
      bot2.context.patient_id = bot0.context.patient_id ∧
      bot2.context.format = bot0.context.format ∧
      bot2.context.patient_data = bot0.context.patient_data ∧
      (truthy bot0.context.partial_patient_id = true →
        truthy bot2.context.partial_patient_id = true) ∧
      (truthy bot0.context.partial_format = true →
        truthy bot2.context.partial_format = true) :=
  (C6_patient_not_found env0 oracleBad bot0 "nine nine nine raw" qBad "999"
    rfl rfl rfl rfl (by decide) rfl (by decide)).1

/-- C7: from DATA_RETRIEVED, a "retrieve_new" classification on an
utterance naming a new valid patient wipes the dialogue context entirely
and lands in DATA_RETRIEVED for the new patient: the resulting context is
a literal built only from the fresh extraction and data lookup, with no
trace of the old patient. -/
theorem C7_retrieve_new_wipes_context (env : Env) (oracle : Oracle) (bot : Bot)
    (msg : String) (q : QueryInfo) (newPid : String)
    (hstate : bot.state = BotState.DATA_RETRIEVED) (hexp : wantsExport msg = false)
    (hint : oracle.classify ("User message: " ++ msg) =
      Except.ok { intention := some "retrieve_new" })
    (hq : oracle.extract
      (extract_prompt (update_history bot "user" msg).conversation_history msg) =
      Except.ok q)
    (hqp : q.patient_id = some newPid) (hnp : newPid ≠ "")
    (hqf : truthy q.format = true)
    (hmem : newPid ∈ bot.patient_ids) :
    ∃ (resp : String) (bot2 : Bot),
      process_message env oracle bot msg = Except.ok (resp, bot2) ∧
      bot2.state = BotState.DATA_RETRIEVED ∧
      bot2.context = { partial_patient_id := none, partial_format := none,
                       missing_info := none, patient_id := some newPid,
                       format := q.format,
                       patient_data := env.get_patient_data newPid } := by
  rcases bot with ⟨pids, st, ctx, hist, mx⟩
  cases hstate
  dsimp only at hq hint hmem ⊢
  have hne : ("retrieve_new" = "analyze_current") = False := by simp
  have htp : truthy q.patient_id = true := by rw [hqp]; exact truthy_some hnp
  have hts : truthy (some newPid) = true := truthy_some hnp
  simp [process_message, handle_data_retrieved, analyze_intention, hint, hne,
    extract_patient_and_format, hq, handle_initial_message, hexp, htp, hqf,
    computeMissing, pyOr_pos, hqp, hts, pyStr, hmem, mergeSlots, truthy_pyOr_right]
  exact ⟨_, _, ⟨rfl, rfl⟩, rfl, rfl⟩

/-- C7 (witness): switching from patient "001" to "002" concretely. -/
theorem C7_witness :
    ∃ (resp : String) (bot2 : Bot),
      process_message env0 oracleNew botDR "now fetch 002 as raw" = Except.ok (resp, bot2) ∧
      bot2.state = BotState.DATA_RETRIEVED ∧
      bot2.context = { partial_patient_id := none, partial_format := none,
                       missing_info := none, patient_id := some "002",
                       format := qNew.format,
                       patient_data := env0.get_patient_data "002" } :=
  C7_retrieve_new_wipes_context env0 oracleNew botDR "now fetch 002 as raw" qNew "002"
    rfl rfl rfl rfl rfl (by decide) rfl (by decide)

/-- C8: when clarification completes, the turn equals exactly one
re-entry of INITIAL handling on the synthesized canonical utterance
"Get {format} data for patient {id}" (first conjunct), and - under the
reachable-state invariant that a slot not listed as missing has a truthy
partial - the re-entered handling can never produce another clarification
round in the same turn (second conjunct); the embedding is structurally
recursive, so every `process_message` call terminates by construction. -/
theorem C8_single_reentry (env : Env) (oracle : Oracle) (bot : Bot) (msg : String)
    (q : QueryInfo)
    (hstate : bot.state = BotState.NEEDS_CLARIFICATION)
    (hexp : wantsExport msg = false)
    (hq : oracle.extract
      (extract_prompt (update_history bot "user" msg).conversation_history msg) =
      Except.ok q)
    (hdone : stillMissing (bot.context.missing_info.getD [])
        (pyOr q.patient_id bot.context.partial_patient_id)
        (pyOr q.format bot.context.partial_format) = [])
    (hinv1 : "patient_id" ∈ bot.context.missing_info.getD [] ∨
      truthy bot.context.partial_patient_id = true)
    (hinv2 : "format" ∈ bot.context.missing_info.getD [] ∨
      truthy bot.context.partial_format = true) :
    (handle_clarification env oracle (update_history bot "user" msg) msg =
      handle_initial_message env oracle
        { update_history bot "user" msg with
          state := BotState.INITIAL,
          context := mergeSlots q bot.context }
        ("Get " ++ pyStr (pyOr q.format bot.context.partial_format) ++
          " data for patient " ++ pyStr (pyOr q.patient_id bot.context.partial_patient_id))) ∧
    (∀ (resp : String) (bot2 : Bot),
      process_message env oracle bot msg = Except.ok (resp, bot2) →
      bot2.state ≠ BotState.NEEDS_CLARIFICATION) := by
  have hP : truthy (pyOr q.patient_id bot.context.partial_patient_id) = true := by
    rcases hinv1 with hmem | hpart
    · by_contra hne
      have hfls : truthy (pyOr q.patient_id bot.context.partial_patient_id) = false := by
        cases h : truthy (pyOr q.patient_id bot.context.partial_patient_id)
        · rfl
        · exact absurd h hne
      have hcont : (bot.context.missing_info.getD []).contains "patient_id" = true := by
        simpa using hmem
      rw [stillMissing, hcont, hfls] at hdone
      simp at hdone
    · exact truthy_pyOr_right hpart
  have hF : truthy (pyOr q.format bot.context.partial_format) = true := by
    rcases hinv2 with hmem | hpart
    · by_contra hne
      have hfls : truthy (pyOr q.format bot.context.partial_format) = false := by
        cases h : truthy (pyOr q.format bot.context.partial_format)
        · rfl
        · exact absurd h hne
      have hcont : (bot.context.missing_info.getD []).contains "format" = true := by
        simpa using hmem
      rw [stillMissing, hcont, hfls] at hdone
      simp at hdone
    · exact truthy_pyOr_right hpart
  have hcl : handle_clarification env oracle (update_history bot "user" msg) msg =
      handle_initial_message env oracle
        { update_history bot "user" msg with
          state := BotState.INITIAL,
          context := mergeSlots q bot.context }
        ("Get " ++ pyStr (pyOr q.format bot.context.partial_format) ++
          " data for patient " ++ pyStr (pyOr q.patient_id bot.context.partial_patient_id)) := by
    simp [handle_clarification, extract_patient_and_format, hexp, hq, hdone]
  refine ⟨hcl, ?_⟩
  intro resp bot2 hok
  simp only [process_message] at hok
  simp only [update_history_state, hstate] at hok
  rw [hcl] at hok
  have hmono1 : truthy (mergeSlots q bot.context).partial_patient_id = true := by
    rw [mergeSlots_partial_patient_id q bot.context hP]; exact hP
  have hmono2 : truthy (mergeSlots q bot.context).partial_format = true := by
    rw [mergeSlots_partial_format q bot.context hF]; exact hF
  cases hE : handle_initial_message env oracle
      { update_history bot "user" msg with
        state := BotState.INITIAL,
        context := mergeSlots q bot.context }
      ("Get " ++ pyStr (pyOr q.format bot.context.partial_format) ++
        " data for patient " ++ pyStr (pyOr q.patient_id bot.context.partial_patient_id)) with
  | error e => rw [hE] at hok; simp at hok
  | ok rb =>
    rw [hE] at hok
    rcases rb with ⟨r, b3⟩
    simp at hok
    have hb3 := handle_initial_no_clarification env oracle
      { update_history bot "user" msg with
        state := BotState.INITIAL,
        context := mergeSlots q bot.context }
      ("Get " ++ pyStr (pyOr q.format bot.context.partial_format) ++
        " data for patient " ++ pyStr (pyOr q.patient_id bot.context.partial_patient_id))
      rfl hmono1 hmono2 r b3 hE
    rw [← hok.2]
    simpa using hb3

/-- C8 (witness): completing a format-only clarification for patient
"032" synthesizes "Get raw data for patient 032" and re-enters INITIAL
handling once. -/
theorem C8_witness :
    handle_clarification env0 oracleFmt (update_history botNC "user" "the raw one") "the raw one" =
      handle_initial_message env0 oracleFmt
        { update_history botNC "user" "the raw one" with
          state := BotState.INITIAL,
          context := mergeSlots { format := some "raw" } botNC.context }
        "Get raw data for patient 032" :=
  (C8_single_reentry env0 oracleFmt botNC "the raw one" { format := some "raw" }
    rfl rfl rfl rfl (Or.inr rfl) (Or.inl (by decide))).1

/-- C9: in ANALYZING_DATA, a missing or empty dataset or an unresolved
patient id resets the state to INITIAL with the prompt asking for a
patient; otherwise the reply is the language model's answer over the
statistics summary of the active dataset and the state moves to
DATA_RETRIEVED. -/
theorem C9_analysis_turn (env : Env) (oracle : Oracle) (bot : Bot) (msg : String)
    (hstate : bot.state = BotState.ANALYZING_DATA) (hexp : wantsExport msg = false) :
    (pandas_missing bot.context.patient_data = true ∨ truthy bot.context.patient_id = false →
      ∃ bot2 : Bot, process_message env oracle bot msg =
          Except.ok ("I don't have any patient data to analyze. Please specify which patient's data you'd like to see.", bot2) ∧
        bot2.state = BotState.INITIAL ∧ bot2.context = bot.context) ∧
    (∀ (d : Dataset) (a : String),
      bot.context.patient_data = some d → d.isEmpty = false →
      truthy bot.context.patient_id = true →
      oracle.analyze ("Data for patient " ++ pyStr bot.context.patient_id ++ ":\n" ++
        statsSummary d ++ "\n" ++
        get_conversation_context (update_history bot "user" msg).conversation_history ++
        "\nCurrent query: " ++ msg) = Except.ok a →
      ∃ bot2 : Bot, process_message env oracle bot msg = Except.ok (a, bot2) ∧
        bot2.state = BotState.DATA_RETRIEVED ∧ bot2.context = bot.context) := by
  rcases bot with ⟨pids, st, ctx, hist, mx⟩
  cases hstate
  constructor
  · intro hmiss
    rcases hmiss with hmiss | hmiss <;>
      simp [process_message, handle_analysis, hexp, hmiss]
  · intro d a hd hde hpid ha
    dsimp only at hd hpid ha
    simp [process_message, handle_analysis, analyze_glucose_data, hexp, hd, hde, hpid, ha,
      pandas_missing]

/-- C9 (witness): the guard branch on a bot with no dataset in context. -/
theorem C9_witness :
    ∃ bot2 : Bot,
      process_message env0 oracleEmpty botAD "what is the trend" =
        Except.ok ("I don't have any patient data to analyze. Please specify which patient's data you'd like to see.", bot2) ∧
      bot2.state = BotState.INITIAL ∧ bot2.context = botAD.context :=
  (C9_analysis_turn env0 oracleEmpty botAD "what is the trend" rfl rfl).1 (Or.inl rfl)

/-- C10: after a patient-not-found turn the invalid id stays stored as
partial_patient_id; a later INITIAL turn whose extraction returns an
empty patient id falls back to it and produces the not-found outcome
again, and only a truthy newly-extracted id overwrites it in the merge. -/
theorem C10_invalid_id_persists (env : Env) (oracle : Oracle) (bot : Bot) (msg : String)
    (q : QueryInfo) (badPid : String)
    (hstate : bot.state = BotState.INITIAL) (hexp : wantsExport msg = false)
    (hq : oracle.extract
      (extract_prompt (update_history bot "user" msg).conversation_history msg) =
      Except.ok q)
    (hqp : truthy q.patient_id = false)
    (hpart : bot.context.partial_patient_id = some badPid)
    (hbad : badPid ≠ "")
    (hfmt : truthy (pyOr q.format bot.context.partial_format) = true)
    (hnot : badPid ∉ bot.patient_ids) :
    (∃ bot2 : Bot,
      process_message env oracle bot msg =
        Except.ok (create_patient_not_found_message (update_history bot "user" msg) badPid,
          bot2) ∧
      bot2.state = BotState.INITIAL ∧
      bot2.context.partial_patient_id = some badPid) ∧
    (∀ (q' : QueryInfo) (ctx' : Context), truthy q'.patient_id = true →
      (mergeSlots q' ctx').partial_patient_id = q'.patient_id) := by
  rcases bot with ⟨pids, st, ctx, hist, mx⟩
  cases hstate
  dsimp only at hq hpart hfmt hnot ⊢
  have hpid : pyOr q.patient_id ctx.partial_patient_id = some badPid := by
    rw [pyOr_neg _ hqp, hpart]
  have htr : truthy (pyOr q.patient_id ctx.partial_patient_id) = true := by
    rw [hpid]; exact truthy_some hbad
  have hts : truthy (some badPid) = true := truthy_some hbad
  have hkeep : (mergeSlots q ctx).partial_patient_id = some badPid := by
    rw [mergeSlots_partial_patient_id q ctx htr, hpid]
  constructor
  · simp [process_message, handle_initial_message, extract_patient_and_format, hexp, hq,
      computeMissing, hts, hfmt, hpid, pyStr, hnot, hkeep]
  · intro q' ctx' hq'
    rw [mergeSlots_partial_patient_id q' ctx' (by rw [pyOr_pos _ hq']; exact hq'),
      pyOr_pos _ hq']

/-- C10 (witness): a format-only follow-up after "999" was rejected runs
into the same not-found reply with the invalid partial retained. -/
theorem C10_witness :
    ∃ bot2 : Bot,
      process_message env0 oracleEmpty botBad "show it" =
        Except.ok (create_patient_not_found_message
          (update_history botBad "user" "show it") "999", bot2) ∧
      bot2.state = BotState.INITIAL ∧
      bot2.context.partial_patient_id = some "999" :=
  (C10_invalid_id_persists env0 oracleEmpty botBad "show it" {} "999"
    rfl rfl rfl rfl rfl (by decide) rfl (by decide)).1

end GlucoseBot
